import Mathlib

/-!
Shallow embedding of the trackv-backend streaming-analytics core
(vehicle detection, stability tracking, congestion scoring, alert
generation, and feed lifecycle management), together with theorems
settling the specification claims about it.

Conventions of the embedding:
* Python floats appearing in arithmetic (densities, confidences,
  pixel coordinates, `time.time()` seconds) are modelled as exact
  rationals `ℚ`; wall-clock minutes are modelled as `ℕ`.
* Python dictionaries are modelled as association lists with
  `lookupA` / `insertA` / `eraseA` below (insertion replaces the
  binding of an existing key, as dict assignment does).
* Euclidean pixel distance comparisons `sqrt(dx^2+dy^2) < 10` are
  modelled by the equivalent squared comparison `dx^2+dy^2 < 100`.
* The external store (`supabase` / SQL tables) is modelled as an
  explicit list of rows threaded through the functions that touch it.
-/

namespace TrackV

/-! ### Association-list helpers (the embedding of Python dicts) -/

def lookupA {κ α : Type} [DecidableEq κ] (k : κ) : List (κ × α) → Option α
  | [] => none
  | (k', v) :: rest => if k = k' then some v else lookupA k rest

def insertA {κ α : Type} [DecidableEq κ] (k : κ) (v : α) : List (κ × α) → List (κ × α)
  | [] => [(k, v)]
  | (k', v') :: rest => if k = k' then (k, v) :: rest else (k', v') :: insertA k v rest

def eraseA {κ α : Type} [DecidableEq κ] (k : κ) : List (κ × α) → List (κ × α)
  | [] => []
  | (k', v') :: rest => if k = k' then rest else (k', v') :: eraseA k rest

theorem lookupA_insertA_self {κ α : Type} [DecidableEq κ] (k : κ) (v : α)
    (l : List (κ × α)) : lookupA k (insertA k v l) = some v := by
  induction l with
  | nil => simp [insertA, lookupA]
  | cons hd tl ih =>
      by_cases h : k = hd.1
      · simp [insertA, lookupA, h]
      · simp [insertA, lookupA, h, ih]

/-! ### Congestion scorer
Embedding of `VehicleDetector.analyze_congestion`
(src/backend/video_processor.py, lines 127-157). -/

inductive CongestionLevel : Type
  | low
  | medium
  | high
  | critical
deriving DecidableEq

structure CongestionResult where
  congestion_score : ℚ
  congestion_level : CongestionLevel
  vehicle_density : ℚ
  vehicle_count : ℕ
deriving DecidableEq

/-- `density = (vehicle_count / frame_area) * 100000` as computed at line 136. -/
def densityOf (vehicle_count : ℕ) (frame_area : ℕ) : ℚ :=
  ((vehicle_count : ℚ) / (frame_area : ℚ)) * 100000

/-- The `if density < 2 ... elif ... else` cascade of lines 139-150,
returning the raw score together with the level. -/
def scoreOfDensity (density : ℚ) : ℚ × CongestionLevel :=
  if density < 2 then (density * 10, CongestionLevel.low)
  else if density < 5 then (20 + (density - 2) * 10, CongestionLevel.medium)
  else if density < 10 then (50 + (density - 5) * 10, CongestionLevel.high)
  else (100, CongestionLevel.critical)

/-- `analyze_congestion(detections, frame_shape)` with
`frame_area = frame_shape[0] * frame_shape[1]`; the returned score is
`min(score, 100)` as at line 153. -/
def analyze_congestion (vehicle_count : ℕ) (shape0 shape1 : ℕ) : CongestionResult :=
  let frame_area := shape0 * shape1
  let density := densityOf vehicle_count frame_area
  let p := scoreOfDensity density
  { congestion_score := min p.1 100
    congestion_level := p.2
    vehicle_density := density
    vehicle_count := vehicle_count }

/-- The piecewise score of spec section 4.4, written with the bands
spelled out exactly as in the spec's table (lower bound inclusive). -/
def spec_score (d : ℚ) : ℚ :=
  if d < 2 then d * 10
  else if 2 ≤ d ∧ d < 5 then 20 + (d - 2) * 10
  else if 5 ≤ d ∧ d < 10 then 50 + (d - 5) * 10
  else 100

/-- The level bands of spec section 4.4. -/
def spec_level (d : ℚ) : CongestionLevel :=
  if d < 2 then CongestionLevel.low
  else if 2 ≤ d ∧ d < 5 then CongestionLevel.medium
  else if 5 ≤ d ∧ d < 10 then CongestionLevel.high
  else CongestionLevel.critical

theorem densityOf_nonneg (c A : ℕ) : 0 ≤ densityOf c A := by
  unfold densityOf
  positivity

theorem score_eq_spec_of_nonneg (d : ℚ) (hd : 0 ≤ d) :
    min (scoreOfDensity d).1 100 = spec_score d ∧ (scoreOfDensity d).2 = spec_level d := by
  unfold scoreOfDensity spec_score spec_level
  by_cases h1 : d < 2
  · simp only [if_pos h1]
    exact ⟨min_eq_left (by linarith), trivial⟩
  · by_cases h2 : d < 5
    · have hc : 2 ≤ d ∧ d < 5 := ⟨by linarith, h2⟩
      simp only [if_neg h1, if_pos h2, if_pos hc]
      exact ⟨min_eq_left (by linarith), trivial⟩
    · by_cases h3 : d < 10
      · have hc2 : ¬(2 ≤ d ∧ d < 5) := fun hh => h2 hh.2
        have hc3 : 5 ≤ d ∧ d < 10 := ⟨by linarith, h3⟩
        simp only [if_neg h1, if_neg h2, if_pos h3, if_neg hc2, if_pos hc3]
        exact ⟨min_eq_left (by linarith), trivial⟩
      · have hc2 : ¬(2 ≤ d ∧ d < 5) := fun hh => h2 hh.2
        have hc3 : ¬(5 ≤ d ∧ d < 10) := fun hh => h3 hh.2
        simp only [if_neg h1, if_neg h2, if_neg h3, if_neg hc2, if_neg hc3]
        exact ⟨min_eq_left (by norm_num), trivial⟩

theorem scoreOfDensity_mono {d1 d2 : ℚ} (h : d1 ≤ d2) :
    (scoreOfDensity d1).1 ≤ (scoreOfDensity d2).1 := by
  unfold scoreOfDensity
  by_cases a1 : d1 < 2 <;> by_cases a2 : d1 < 5 <;> by_cases a3 : d1 < 10 <;>
    by_cases b1 : d2 < 2 <;> by_cases b2 : d2 < 5 <;> by_cases b3 : d2 < 10 <;>
      simp only [if_pos, if_neg, a1, a2, a3, b1, b2, b3, if_true, if_false] <;>
        first
          | linarith
          | (exfalso; linarith)

/-- C3: for every non-negative vehicle count and positive frame area the
scorer computes `density = (vehicleCount / frameArea) * 100000` and returns
exactly the spec's piecewise mapping (bands inclusive of the lower bound),
with the score never exceeding 100; concretely density 1 gives score 10
(low), density 3 gives 30 (medium), density 7 gives 70 (high) and density
12 gives 100 (critical). -/
theorem C3_congestion_scorer_piecewise (count sh0 sh1 : ℕ) (hA : 0 < sh0 * sh1) :
    (analyze_congestion count sh0 sh1).vehicle_density = densityOf count (sh0 * sh1) ∧
    (analyze_congestion count sh0 sh1).congestion_score = spec_score (densityOf count (sh0 * sh1)) ∧
    (analyze_congestion count sh0 sh1).congestion_level = spec_level (densityOf count (sh0 * sh1)) ∧
    (analyze_congestion count sh0 sh1).congestion_score ≤ 100 ∧
    (analyze_congestion 1 1000 100).congestion_score = 10 ∧
    (analyze_congestion 1 1000 100).congestion_level = CongestionLevel.low ∧
    (analyze_congestion 3 1000 100).congestion_score = 30 ∧
    (analyze_congestion 3 1000 100).congestion_level = CongestionLevel.medium ∧
    (analyze_congestion 7 1000 100).congestion_score = 70 ∧
    (analyze_congestion 7 1000 100).congestion_level = CongestionLevel.high ∧
    (analyze_congestion 12 1000 100).congestion_score = 100 ∧
    (analyze_congestion 12 1000 100).congestion_level = CongestionLevel.critical := by
  have hs := score_eq_spec_of_nonneg (densityOf count (sh0 * sh1))
    (densityOf_nonneg count (sh0 * sh1))
  refine ⟨rfl, hs.1, hs.2, min_le_right _ _, ?_, ?_, ?_, ?_, ?_, ?_, ?_, ?_⟩ <;>
    norm_num [analyze_congestion, densityOf, scoreOfDensity]

/-- Witness for `C3_congestion_scorer_piecewise` at count 1 and frame
shape 1000 x 100 (density 1). -/
theorem C3_congestion_scorer_piecewise_witness :
    0 < 1000 * 100 ∧
      (analyze_congestion 1 1000 100).congestion_score = spec_score (densityOf 1 (1000 * 100)) :=
  ⟨by norm_num, (C3_congestion_scorer_piecewise 1 1000 100 (by norm_num)).2.1⟩

/-- C4: the congestion score is monotonic non-decreasing in density: for
two inputs with equal frame area, a smaller-or-equal density yields a
smaller-or-equal score, including across the band boundaries at densities
2, 5 and 10. -/
theorem C4_congestion_score_monotone (c1 c2 sh0 sh1 : ℕ) (hA : 0 < sh0 * sh1)
    (hd : densityOf c1 (sh0 * sh1) ≤ densityOf c2 (sh0 * sh1)) :
    (analyze_congestion c1 sh0 sh1).congestion_score ≤
      (analyze_congestion c2 sh0 sh1).congestion_score :=
  min_le_min (scoreOfDensity_mono hd) le_rfl

/-- Witness for `C4_congestion_score_monotone` across the band boundary
at density 2 (densities 1 and 2 on a 1000 x 100 frame). -/
theorem C4_congestion_score_monotone_witness :
    (0 < 1000 * 100 ∧ densityOf 1 (1000 * 100) ≤ densityOf 2 (1000 * 100)) ∧
      (analyze_congestion 1 1000 100).congestion_score ≤
        (analyze_congestion 2 1000 100).congestion_score :=
  ⟨⟨by norm_num, by norm_num [densityOf]⟩,
    C4_congestion_score_monotone 1 2 1000 100 (by norm_num) (by norm_num [densityOf])⟩

/-! ### Per-vehicle stability tracker
Embedding of `OpenCVAnalyzer.detect_stable_vehicles`
(src/backend/video_processor/opencv_analyzer.py, lines 110-141).
`self.stable_vehicles` is the association list threaded through,
`time.time()` seconds are modelled as `ℚ`. -/

structure StableEntry where
  position : ℚ × ℚ
  start_time : ℚ
deriving DecidableEq

structure VehiclePos where
  id : ℕ
  position : ℚ × ℚ
deriving DecidableEq

/-- Squared Euclidean displacement; the source compares
`np.sqrt(distSq) < 10`, which is equivalent to `distSq < 100`. -/
def distSq (p q : ℚ × ℚ) : ℚ := (p.1 - q.1) ^ 2 + (p.2 - q.2) ^ 2

def stable_threshold_seconds : ℚ := 600

/-- One iteration of the `for vehicle in vehicle_positions` loop of
`detect_stable_vehicles` (lines 115-139). -/
def stable_step (current_time : ℚ) (acc : List (ℕ × StableEntry) × ℕ) (v : VehiclePos) :
    List (ℕ × StableEntry) × ℕ :=
  match lookupA v.id acc.1 with
  | none => (insertA v.id ⟨v.position, current_time⟩ acc.1, acc.2)
  | some e =>
      if distSq v.position e.position < 100 then
        if stable_threshold_seconds < current_time - e.start_time then (acc.1, acc.2 + 1)
        else acc
      else (insertA v.id ⟨v.position, current_time⟩ acc.1, acc.2)

/-- `detect_stable_vehicles(vehicle_positions)`: returns the updated
tracking table together with the returned `stable_count`. -/
def detect_stable_vehicles (tbl : List (ℕ × StableEntry))
    (vehicle_positions : List VehiclePos) (current_time : ℚ) :
    List (ℕ × StableEntry) × ℕ :=
  vehicle_positions.foldl (stable_step current_time) (tbl, 0)

/-- C2: for a tracked entry, a subsequent detection at the same key with
displacement at least the movement epsilon (10 px, i.e. squared
displacement at least 100) resets the entry to position `p` and
`start_time = now` (so the stability duration restarts at 0), while a
displacement below the epsilon leaves the entry, and in particular its
`start_time`, unchanged. -/
theorem C2_displacement_resets_first_seen (tbl : List (ℕ × StableEntry))
    (i : ℕ) (p : ℚ × ℚ) (e : StableEntry) (now : ℚ)
    (he : lookupA i tbl = some e) :
    (100 ≤ distSq p e.position →
      lookupA i (detect_stable_vehicles tbl [⟨i, p⟩] now).1 = some ⟨p, now⟩) ∧
    (distSq p e.position < 100 →
      lookupA i (detect_stable_vehicles tbl [⟨i, p⟩] now).1 = some e) := by
  unfold detect_stable_vehicles
  simp only [List.foldl]
  unfold stable_step
  simp only [he]
  constructor
  · intro hmove
    rw [if_neg (not_lt.mpr hmove)]
    exact lookupA_insertA_self i ⟨p, now⟩ tbl
  · intro hstay
    rw [if_pos hstay]
    split_ifs <;> exact he

/-- Witness for `C2_displacement_resets_first_seen`: a vehicle tracked at
(0,0) since time 0 is re-detected at (20,0) at time 5 (displacement
20 px ≥ 10 px), and the entry is reset to position (20,0), start time 5. -/
theorem C2_displacement_resets_first_seen_witness :
    (lookupA 0 [((0 : ℕ), (⟨(0, 0), 0⟩ : StableEntry))] = some ⟨(0, 0), 0⟩ ∧
      (100 : ℚ) ≤ distSq (20, 0) (0, 0)) ∧
    lookupA 0 (detect_stable_vehicles [(0, ⟨(0, 0), 0⟩)] [⟨0, (20, 0)⟩] 5).1 =
      some ⟨(20, 0), 5⟩ :=
  ⟨⟨rfl, by norm_num [distSq]⟩,
    (C2_displacement_resets_first_seen [(0, ⟨(0, 0), 0⟩)] 0 (20, 0) ⟨(0, 0), 0⟩ 5 rfl).1
      (by norm_num [distSq])⟩

/-! ### Per-frame vehicle detection
Embedding of `VehicleDetector.detect_vehicles`
(src/backend/video_processor.py, lines 36-87) and
`OpenCVAnalyzer.process_frame`
(src/backend/video_processor/opencv_analyzer.py, lines 79-108).
Both loop over the model's boxes and keep those whose class id is in
`[2, 3, 5, 7]`; `opencv_analyzer` spells the second label `motorbike`
where `video_processor` spells it `motorcycle` — the two class-id-to-label
maps are both injective on `{2, 3, 5, 7}`, so one label type serves. -/

inductive VehicleType : Type
  | car
  | motorcycle
  | bus
  | truck
  | unknown
deriving DecidableEq

/-- A detector output box: class id, confidence, xyxy bounding box. -/
structure Box where
  cls : ℕ
  conf : ℚ
  bbox : ℚ × ℚ × ℚ × ℚ
deriving DecidableEq

structure DetectionRecord where
  type : VehicleType
  confidence : ℚ
  bbox : ℚ × ℚ × ℚ × ℚ
deriving DecidableEq

/-- The `vehicle_types` histogram (a `defaultdict(int)` keyed by label);
its possible keys are the four class labels plus the `unknown` fallback
of `_get_vehicle_type`. -/
structure TypeHist where
  car : ℕ
  motorcycle : ℕ
  bus : ℕ
  truck : ℕ
  unknown : ℕ
deriving DecidableEq

def TypeHist.empty : TypeHist := ⟨0, 0, 0, 0, 0⟩

def TypeHist.bump (h : TypeHist) : VehicleType → TypeHist
  | VehicleType.car => { h with car := h.car + 1 }
  | VehicleType.motorcycle => { h with motorcycle := h.motorcycle + 1 }
  | VehicleType.bus => { h with bus := h.bus + 1 }
  | VehicleType.truck => { h with truck := h.truck + 1 }
  | VehicleType.unknown => { h with unknown := h.unknown + 1 }

/-- The sum of the histogram's counts. -/
def TypeHist.total (h : TypeHist) : ℕ :=
  h.car + h.motorcycle + h.bus + h.truck + h.unknown

/-- `_get_vehicle_type(class_id)` (video_processor.py lines 189-198). -/
def get_vehicle_type (class_id : ℕ) : VehicleType :=
  if class_id = 2 then VehicleType.car
  else if class_id = 3 then VehicleType.motorcycle
  else if class_id = 5 then VehicleType.bus
  else if class_id = 7 then VehicleType.truck
  else VehicleType.unknown

/-- The membership test `cls in self.vehicle_classes`. -/
def isVehicleClass (class_id : ℕ) : Bool :=
  (class_id == 2) || (class_id == 3) || (class_id == 5) || (class_id == 7)

/-- The running contents of the `detections` dict while the box loop runs
(everything except `avg_confidence`, which is computed afterwards). -/
structure DetAcc where
  vehicle_count : ℕ
  vehicle_types : TypeHist
  detections : List DetectionRecord
  confidence_scores : List ℚ
deriving DecidableEq

/-- One iteration of the `for box in result.boxes` loop. -/
def detect_step (acc : DetAcc) (b : Box) : DetAcc :=
  if isVehicleClass b.cls then
    { vehicle_count := acc.vehicle_count + 1
      vehicle_types := acc.vehicle_types.bump (get_vehicle_type b.cls)
      detections := acc.detections ++ [⟨get_vehicle_type b.cls, b.conf, b.bbox⟩]
      confidence_scores := acc.confidence_scores ++ [b.conf] }
  else acc

def ratSum (l : List ℚ) : ℚ := l.foldl (· + ·) 0

structure DetectionResult where
  vehicle_count : ℕ
  vehicle_types : TypeHist
  detections : List DetectionRecord
  confidence_scores : List ℚ
  avg_confidence : ℚ
deriving DecidableEq

/-- `detect_vehicles(frame)`: the model call either yields boxes
(`some boxes`) or raises (`none`); a raising call takes the
except-branch of lines 80-87 and returns the zeroed fallback record
(whose `confidence_scores` key is absent in the source: modelled as the
empty list). The function itself never raises. -/
def detect_vehicles (model_output : Option (List Box)) : DetectionResult :=
  match model_output with
  | none =>
      { vehicle_count := 0, vehicle_types := TypeHist.empty, detections := [],
        confidence_scores := [], avg_confidence := 0 }
  | some boxes =>
      let acc := boxes.foldl detect_step ⟨0, TypeHist.empty, [], []⟩
      { vehicle_count := acc.vehicle_count
        vehicle_types := acc.vehicle_types
        detections := acc.detections
        confidence_scores := acc.confidence_scores
        avg_confidence :=
          if acc.confidence_scores.length ≠ 0 then
            ratSum acc.confidence_scores / acc.confidence_scores.length
          else 0 }

structure FrameDetections where
  vehicle_count : ℕ
  vehicle_types : TypeHist
  detections : List DetectionRecord
deriving DecidableEq

/-- `OpenCVAnalyzer.process_frame(frame)` (lines 79-108): same loop, no
average-confidence field, and errors of the model call propagate to the
caller (handled in `_process_feed`). -/
def process_frame (boxes : List Box) : FrameDetections :=
  let acc := boxes.foldl detect_step ⟨0, TypeHist.empty, [], []⟩
  { vehicle_count := acc.vehicle_count
    vehicle_types := acc.vehicle_types
    detections := acc.detections }

/-- The consistency invariant of the accumulated detection record. -/
def detAccInv (acc : DetAcc) : Prop :=
  acc.vehicle_count = acc.detections.length ∧ acc.vehicle_count = acc.vehicle_types.total

theorem TypeHist.bump_total (h : TypeHist) (t : VehicleType) :
    (h.bump t).total = h.total + 1 := by
  cases t <;> simp [TypeHist.bump, TypeHist.total] <;> ring

theorem detect_step_inv {acc : DetAcc} (b : Box) (h : detAccInv acc) :
    detAccInv (detect_step acc b) := by
  unfold detect_step
  split_ifs
  · exact ⟨by simp [h.1], by simp [TypeHist.bump_total, h.2]⟩
  · exact h

theorem foldl_detect_inv (boxes : List Box) {acc : DetAcc} (h : detAccInv acc) :
    detAccInv (boxes.foldl detect_step acc) := by
  induction boxes generalizing acc with
  | nil => exact h
  | cons b bs ih => exact ih (detect_step_inv b h)

/-- C10: for every input frame the detection result is consistent —
`vehicle_count` equals the length of the `detections` list and the sum
of the `vehicle_types` histogram — for both `detect_vehicles` and
`process_frame`; and on the detector-error fallback branch
`detect_vehicles` returns count 0, empty histogram, empty detection
list and average confidence 0 (and, being a total function, never
raises). -/
theorem C10_detection_result_consistent :
    (∀ model_output : Option (List Box),
      (detect_vehicles model_output).vehicle_count =
          (detect_vehicles model_output).detections.length ∧
        (detect_vehicles model_output).vehicle_count =
          (detect_vehicles model_output).vehicle_types.total) ∧
    (∀ boxes : List Box,
      (process_frame boxes).vehicle_count = (process_frame boxes).detections.length ∧
        (process_frame boxes).vehicle_count = (process_frame boxes).vehicle_types.total) ∧
    detect_vehicles none =
      { vehicle_count := 0, vehicle_types := TypeHist.empty, detections := [],
        confidence_scores := [], avg_confidence := 0 } := by
  refine ⟨?_, ?_, rfl⟩
  · intro mo
    cases mo with
    | none => exact ⟨rfl, rfl⟩
    | some boxes =>
        have h := foldl_detect_inv boxes
          (show detAccInv ⟨0, TypeHist.empty, [], []⟩ from ⟨rfl, rfl⟩)
        exact ⟨h.1, h.2⟩
  · intro boxes
    have h := foldl_detect_inv boxes
      (show detAccInv ⟨0, TypeHist.empty, [], []⟩ from ⟨rfl, rfl⟩)
    exact ⟨h.1, h.2⟩

/-! ### Alert generation and deduplication
Embedding of `CongestionAnalyzer.check_and_create_alerts`
(src/backend/vehicle_detection.py, lines 24-103). The
`congestion_alerts` table is the `store` list, `self.vehicle_tracking`
is an association list keyed by the junction id (the source key is the
string `junction_<id>`), and wall-clock time is modelled in whole
minutes, so the source's `duration = seconds / 60` compared with
`> stable_threshold_minutes` and truncated by `int(...)` is `now -
first_detected` on `ℕ`. -/

inductive AlertType : Type
  | high_congestion
  | stable_vehicle
  | bottleneck
deriving DecidableEq

inductive AlertStatus : Type
  | active
  | resolved
deriving DecidableEq

structure AlertRow where
  junction_id : ℕ
  alert_type : AlertType
  stable_duration_minutes : ℕ
  alert_status : AlertStatus
deriving DecidableEq

structure TrackingData where
  first_detected : ℕ
  vehicle_count : ℕ
  last_update : ℕ
deriving DecidableEq

structure AnalyzerState where
  store : List AlertRow
  vehicle_tracking : List (ℕ × TrackingData)
deriving DecidableEq

def stable_threshold_minutes : ℕ := 10

/-- The store query of lines 33-35: active `stable_vehicle` alerts of
the junction. -/
def isActiveStable (junction_id : ℕ) (a : AlertRow) : Bool :=
  (a.junction_id == junction_id) && (a.alert_status == AlertStatus.active) &&
    (a.alert_type == AlertType.stable_vehicle)

/-- `check_and_create_alerts(junction_id, detections, ...)`: returns the
new state together with `alerts_created`. -/
def check_and_create_alerts (st : AnalyzerState) (junction_id vehicle_count now : ℕ) :
    AnalyzerState × List AlertRow :=
  let stable_vehicles := st.store.filter (isActiveStable junction_id)
  -- lines 40-53: the high-congestion insert is guarded only by the
  -- count threshold, not by any query of existing alerts
  let step1 : List AlertRow × List AlertRow :=
    if 30 < vehicle_count then
      ([AlertRow.mk junction_id AlertType.high_congestion 0 AlertStatus.active],
       [AlertRow.mk junction_id AlertType.high_congestion 0 AlertStatus.active])
    else ([], [])
  let store1 := st.store ++ step1.1
  let created1 := step1.2
  -- lines 56-67: per-junction stability tracking
  let t : TrackingData :=
    match lookupA junction_id st.vehicle_tracking with
    | none => ⟨now, vehicle_count, now⟩
    | some t0 => { t0 with last_update := now, vehicle_count := vehicle_count }
  let tracking1 := insertA junction_id t st.vehicle_tracking
  -- lines 70-98
  let duration := now - t.first_detected
  if stable_threshold_minutes < duration then
    let has_alert := stable_vehicles.any
      (fun a => decide (stable_threshold_minutes ≤ a.stable_duration_minutes))
    if has_alert then (⟨store1, tracking1⟩, created1)
    else
      (⟨store1 ++ [AlertRow.mk junction_id AlertType.stable_vehicle duration AlertStatus.active],
          tracking1⟩,
       created1 ++ [AlertRow.mk junction_id AlertType.stable_vehicle duration AlertStatus.active])
  else
    if vehicle_count < 10 then (⟨store1, eraseA junction_id tracking1⟩, created1)
    else (⟨store1, tracking1⟩, created1)

/-- The sample sequence of the claim: one call of
`check_and_create_alerts` per vehicle count, at consecutive one-minute
sampling intervals, accumulating all created alerts. -/
def run_counts : AnalyzerState → ℕ → ℕ → List ℕ → AnalyzerState × List AlertRow
  | st, _, _, [] => (st, [])
  | st, junction_id, now, c :: rest =>
      let r := check_and_create_alerts st junction_id c now
      let r2 := run_counts r.1 junction_id (now + 1) rest
      (r2.1, r.2 ++ r2.2)

/-- C1 fails on the code: the generator's store query (lines 33-35)
matches only `stable_vehicle` alerts, and the high-congestion insert is
not guarded by it, so for counts [35, 40, 32] with empty store and no
tracking state, three `high_congestion` alerts are created (one per
sample), not one; moreover a single call with count 35 creates a second
active `high_congestion` alert even when one is already active for the
same junction. -/
theorem C1_counterexample :
    ((run_counts ⟨[], []⟩ 1 0 [35, 40, 32]).2.countP
        (fun a => a.alert_type == AlertType.high_congestion) = 3) ∧
    ((check_and_create_alerts
        ⟨[AlertRow.mk 1 AlertType.high_congestion 0 AlertStatus.active], []⟩ 1 35 0).2.countP
        (fun a => a.alert_type == AlertType.high_congestion) = 1) := by
  decide

/-- C1 amended: the dedup query guards only `stable_vehicle` alerts —
when the store already holds an active `stable_vehicle` alert of the
junction with recorded duration at least the threshold, a call creates
no new `stable_vehicle` alert; `high_congestion` alerts are created at
every sample with count above 30 regardless of the store, so the sample
sequence [35, 40, 32] creates exactly three `high_congestion` alerts,
one per sample. -/
theorem C1_amended_stable_dedup_only (st : AnalyzerState) (junction_id vehicle_count now : ℕ)
    (hdedup : ∃ a ∈ st.store, isActiveStable junction_id a = true ∧
        stable_threshold_minutes ≤ a.stable_duration_minutes) :
    ((check_and_create_alerts st junction_id vehicle_count now).2.countP
        (fun a => a.alert_type == AlertType.high_congestion) =
      if 30 < vehicle_count then 1 else 0) ∧
    ((check_and_create_alerts st junction_id vehicle_count now).2.countP
        (fun a => a.alert_type == AlertType.stable_vehicle) = 0) ∧
    ((run_counts ⟨[], []⟩ 1 0 [35, 40, 32]).2.countP
        (fun a => a.alert_type == AlertType.high_congestion) = 3) := by
  have hany : (st.store.filter (isActiveStable junction_id)).any
      (fun a => decide (stable_threshold_minutes ≤ a.stable_duration_minutes)) = true := by
    obtain ⟨a, ha, hact, hdur⟩ := hdedup
    exact List.any_eq_true.mpr
      ⟨a, List.mem_filter.mpr ⟨ha, hact⟩, decide_eq_true hdur⟩
  unfold check_and_create_alerts
  simp only [hany, if_true]
  refine ⟨?_, ?_, by decide⟩ <;>
    split_ifs <;>
      simp [List.countP_cons, List.countP_nil]

/-- Witness for `C1_amended_stable_dedup_only`: with an active
`stable_vehicle` alert of duration 12 already stored for junction 1, a
call with count 35 creates no new `stable_vehicle` alert. -/
theorem C1_amended_stable_dedup_only_witness :
    (∃ a ∈ [AlertRow.mk 1 AlertType.stable_vehicle 12 AlertStatus.active],
        isActiveStable 1 a = true ∧ stable_threshold_minutes ≤ a.stable_duration_minutes) ∧
    ((check_and_create_alerts
        ⟨[AlertRow.mk 1 AlertType.stable_vehicle 12 AlertStatus.active], []⟩ 1 35 0).2.countP
        (fun a => a.alert_type == AlertType.stable_vehicle) = 0) :=
  ⟨by decide,
    (C1_amended_stable_dedup_only
      ⟨[AlertRow.mk 1 AlertType.stable_vehicle 12 AlertStatus.active], []⟩ 1 35 0
      (by decide)).2.1⟩

/-! ### Bottleneck detection
Embedding of `AlertService.detect_bottleneck_and_alert`
(src/notifications/alert_service.py, lines 166-185). -/

inductive Severity : Type
  | medium
  | high
  | critical
deriving DecidableEq

structure BottleneckAlert where
  junction_id : ℕ
  alert_type : AlertType
  severity : Severity
deriving DecidableEq

/-- `detect_bottleneck_and_alert(junction_id, vehicle_count,
stable_vehicles)`: `some` is the `create_alert` call of lines 176-183,
`none` means no alert is created. -/
def detect_bottleneck_and_alert (junction_id vehicle_count stable_vehicles : ℕ) :
    Option BottleneckAlert :=
  if 100 < vehicle_count ∨ 5 < stable_vehicles then
    some ⟨junction_id, AlertType.bottleneck,
      if 10 < stable_vehicles then Severity.critical else Severity.high⟩
  else none

/-- C5 fails on the code: the condition at line 170 is a disjunction,
not a conjunction — with vehicle count 101 and stable count 0 the
conjunction of the claim does not hold, yet a bottleneck alert is
created. -/
theorem C5_counterexample :
    (detect_bottleneck_and_alert 1 101 0).isSome = true ∧
      ¬(100 < 101 ∧ 5 < (0 : ℕ)) := by
  decide

/-- C5 amended: a bottleneck alert is created exactly when the
aggregate vehicle count exceeds 100 **or** the stable-vehicle count
exceeds 5 (disjunction, not conjunction). -/
theorem C5_amended_bottleneck_disjunction (junction_id vehicle_count stable_vehicles : ℕ) :
    (detect_bottleneck_and_alert junction_id vehicle_count stable_vehicles).isSome = true ↔
      (100 < vehicle_count ∨ 5 < stable_vehicles) := by
  unfold detect_bottleneck_and_alert
  split_ifs with h <;> simp [h]

/-! ### Feed registry and lifecycle
Embedding of `VideoAnalysisService`, `VideoProcessor` and the source
handlers (src/backend/video_processor/video_handler.py). A feed id is
the `<junction>_<feed_name>_<timestamp>` triple of line 199. `registry`
is the key set of `self.active_processors`; `procs` is the heap of
`VideoProcessor` objects (each shared between the registry and the
worker thread holding a reference to it, so deleting the registry key
does not destroy the object); `workers` is the embedding of the
unjoined background threads together with their source handles;
`analysis_results` is `self.analysis_results`. -/

structure FeedId where
  junction_id : ℕ
  feed_name : ℕ
  timestamp : ℕ
deriving DecidableEq

structure Processor where
  junction_id : ℕ
  frame_count : ℕ
  is_processing : Bool
  stop_event : Bool
deriving DecidableEq

structure WorkerState where
  exited : Bool
  source_released : Bool
deriving DecidableEq

structure Snapshot where
  frame_count : ℕ
  vehicle_count : ℕ
  vehicle_types : TypeHist
  detections : List DetectionRecord
deriving DecidableEq

structure ServiceState where
  registry : List FeedId
  procs : List (FeedId × Processor)
  workers : List (FeedId × WorkerState)
  analysis_results : List (FeedId × Snapshot)
deriving DecidableEq

inductive CreateFeedResult : Type
  | ok (feed_id : FeedId)
  | sourceUnavailable
deriving DecidableEq

def empty_service : ServiceState := ⟨[], [], [], []⟩

/-- `add_youtube_feed(junction_id, youtube_url, feed_name)` (lines
193-213) together with the background worker's behaviour when the
initial source open fails. The handler and processor constructors
never raise; the feed is registered and the worker thread started
before any source open is attempted, and the feed id is returned
unconditionally. When `open_ok` is false the worker's first call of
`get_video_stream` raises inside the thread: the generator's
finally-block runs (no live handle remains) and the exception kills
the thread, touching neither the registry nor the result map.
`SourceUnavailable` is never produced. -/
def add_youtube_feed (svc : ServiceState) (junction_id feed_name ts : ℕ) (open_ok : Bool) :
    ServiceState × CreateFeedResult :=
  let feed_id : FeedId := ⟨junction_id, feed_name, ts⟩
  let processor : Processor := ⟨junction_id, 0, false, false⟩
  let svc1 : ServiceState :=
    { svc with
        registry := feed_id :: svc.registry
        procs := insertA feed_id processor svc.procs
        workers := insertA feed_id ⟨false, false⟩ svc.workers }
  let svc2 :=
    if open_ok then svc1
    else { svc1 with workers := insertA feed_id ⟨true, true⟩ svc1.workers }
  (svc2, CreateFeedResult.ok feed_id)

/-- `VideoProcessor.stop_processing` (lines 173-176). -/
def stop_processing (p : Processor) : Processor :=
  { p with is_processing := false, stop_event := true }

/-- `stop_feed(feed_id)` (lines 304-308): signals the shared processor
object and deletes the registry key; it performs no join and does not
touch the worker thread or its source handle before returning. -/
def stop_feed (svc : ServiceState) (feed_id : FeedId) : ServiceState :=
  if feed_id ∈ svc.registry then
    { svc with
        procs :=
          match lookupA feed_id svc.procs with
          | some p => insertA feed_id (stop_processing p) svc.procs
          | none => svc.procs
        registry := svc.registry.erase feed_id }
  else svc

/-- One visit of the worker's loop boundary `while self.is_processing
and not self.stop_event.is_set()` (line 151): once cancellation is
signalled the loop exits and the finally-block (lines 169-171)
releases the source handle and clears `is_processing`. -/
def worker_observe_cancellation (svc : ServiceState) (feed_id : FeedId) : ServiceState :=
  match lookupA feed_id svc.procs, lookupA feed_id svc.workers with
  | some p, some w =>
      if w.exited then svc
      else if p.is_processing = false ∨ p.stop_event = true then
        { svc with
            workers := insertA feed_id ⟨true, true⟩ svc.workers
            procs := insertA feed_id { p with is_processing := false } svc.procs }
      else svc
  | _, _ => svc

/-- The snapshot stored into `analysis_results` at lines 270-276. -/
def snapshotOf (frame_count : ℕ) (d : FrameDetections) : Snapshot :=
  ⟨frame_count, d.vehicle_count, d.vehicle_types, d.detections⟩

/-- One yielded frame inside `_process_feed` (lines 264-282): `none`
models `analyzer.process_frame` raising on that frame — the
except-branch logs the error and the loop continues with the next
frame; `some d` is a successful detection, published to
`analysis_results` when the frame count is a multiple of 30. (The
database write `_save_analysis_result` is an external effect that
absorbs its own failures and is not part of the service state.) The
accumulator carries the state and the number of errors logged. -/
def process_feed_step (feed_id : FeedId) (acc : ServiceState × ℕ)
    (item : ℕ × Option FrameDetections) : ServiceState × ℕ :=
  match item.2 with
  | none => (acc.1, acc.2 + 1)
  | some d =>
      if item.1 % 30 = 0 then
        ({ acc.1 with
            analysis_results := insertA feed_id (snapshotOf item.1 d) acc.1.analysis_results },
         acc.2)
      else (acc.1, acc.2)

/-- `_process_feed(feed_id, processor)` over the frames yielded by
`process_video_stream`. -/
def process_feed (feed_id : FeedId) (svc : ServiceState)
    (items : List (ℕ × Option FrameDetections)) : ServiceState × ℕ :=
  items.foldl (process_feed_step feed_id) (svc, 0)

/-- `get_feed_results(feed_id)` (lines 300-302): `none` is the empty
dict `{}` returned for a missing key. -/
def get_feed_results (svc : ServiceState) (feed_id : FeedId) : Option Snapshot :=
  lookupA feed_id svc.analysis_results

/-- C6 fails on the code: with a source whose initial open fails,
`add_youtube_feed` does not fail synchronously with
`SourceUnavailable` — it returns the feed id, and after the worker
dies on the failed open the registry still holds the new entry (an
orphan), so the registry is not left unchanged. -/
theorem C6_counterexample :
    ((add_youtube_feed empty_service 1 2 3 false).2 = CreateFeedResult.ok ⟨1, 2, 3⟩) ∧
    ((⟨1, 2, 3⟩ : FeedId) ∈ (add_youtube_feed empty_service 1 2 3 false).1.registry) ∧
    ((add_youtube_feed empty_service 1 2 3 false).1.registry ≠ empty_service.registry) := by
  decide

/-- C6 amended: the initial source open happens in the background
worker after registration — for every starting state, a feed whose
open fails is still registered, its feed id is still returned to the
caller (never `SourceUnavailable`), and the dead worker leaves the
registry entry in place as an orphan. -/
theorem C6_amended_orphan_on_failed_open (svc : ServiceState) (junction_id feed_name ts : ℕ) :
    ((add_youtube_feed svc junction_id feed_name ts false).2 =
        CreateFeedResult.ok ⟨junction_id, feed_name, ts⟩) ∧
    ((⟨junction_id, feed_name, ts⟩ : FeedId) ∈
        (add_youtube_feed svc junction_id feed_name ts false).1.registry) ∧
    (lookupA (⟨junction_id, feed_name, ts⟩ : FeedId)
        (add_youtube_feed svc junction_id feed_name ts false).1.workers =
      some ⟨true, true⟩) :=
  ⟨rfl, List.mem_cons_self _ _, lookupA_insertA_self _ _ _⟩

/-- A service with one feed actively processing: processor running and
worker thread alive with the source handle held. -/
def running_service : ServiceState :=
  { registry := [⟨1, 2, 3⟩]
    procs := [(⟨1, 2, 3⟩, ⟨1, 0, true, false⟩)]
    workers := [(⟨1, 2, 3⟩, ⟨false, false⟩)]
    analysis_results := [] }

/-- C7 fails on the code: `stop_feed` removes the registry entry and
returns with no join or wait of any kind — at the moment it returns,
the feed's worker thread has neither observed cancellation nor exited,
and the source handle is still held. -/
theorem C7_counterexample :
    lookupA (⟨1, 2, 3⟩ : FeedId) (stop_feed running_service ⟨1, 2, 3⟩).workers =
      some ⟨false, false⟩ := by
  decide

/-- C7 amended: `stop_feed` on an actively processing feed signals
cancellation on the shared processor (stop event set, `is_processing`
cleared) and removes the registry entry, but returns immediately
without waiting: the worker state is untouched by the call. Only when
the worker itself next reaches its loop boundary does it observe the
cancellation, exit, and release the source handle. -/
theorem C7_amended_signal_without_join (svc : ServiceState) (feed_id : FeedId)
    (p : Processor) (w : WorkerState)
    (hreg : feed_id ∈ svc.registry) (hp : lookupA feed_id svc.procs = some p)
    (hw : lookupA feed_id svc.workers = some w) (hrun : w.exited = false) :
    (lookupA feed_id (stop_feed svc feed_id).procs = some (stop_processing p)) ∧
    ((stop_feed svc feed_id).registry = svc.registry.erase feed_id) ∧
    ((stop_feed svc feed_id).workers = svc.workers) ∧
    (lookupA feed_id
        (worker_observe_cancellation (stop_feed svc feed_id) feed_id).workers =
      some ⟨true, true⟩) := by
  have hsf : stop_feed svc feed_id =
      { svc with
          procs := insertA feed_id (stop_processing p) svc.procs
          registry := svc.registry.erase feed_id } := by
    unfold stop_feed
    rw [if_pos hreg, hp]
  refine ⟨?_, ?_, ?_, ?_⟩
  · rw [hsf]
    exact lookupA_insertA_self _ _ _
  · rw [hsf]
  · rw [hsf]
  · rw [hsf]
    unfold worker_observe_cancellation
    dsimp only
    rw [lookupA_insertA_self, hw]
    dsimp only
    rw [hrun]
    simp only [Bool.false_eq_true, if_false]
    have hcond : (stop_processing p).is_processing = false ∨ (stop_processing p).stop_event = true :=
      Or.inl rfl
    rw [if_pos hcond]
    dsimp only
    exact lookupA_insertA_self _ _ _

/-- Witness for `C7_amended_signal_without_join` on the concrete
one-feed running service. -/
theorem C7_amended_signal_without_join_witness :
    ((⟨1, 2, 3⟩ : FeedId) ∈ running_service.registry ∧
      lookupA (⟨1, 2, 3⟩ : FeedId) running_service.procs = some ⟨1, 0, true, false⟩ ∧
      lookupA (⟨1, 2, 3⟩ : FeedId) running_service.workers = some ⟨false, false⟩) ∧
    lookupA (⟨1, 2, 3⟩ : FeedId)
        (worker_observe_cancellation (stop_feed running_service ⟨1, 2, 3⟩) ⟨1, 2, 3⟩).workers =
      some ⟨true, true⟩ :=
  ⟨⟨by decide, by decide, by decide⟩,
    (C7_amended_signal_without_join running_service ⟨1, 2, 3⟩ ⟨1, 0, true, false⟩
      ⟨false, false⟩ (by decide) (by decide) (by decide) rfl).2.2.2⟩

theorem process_feed_step_effect (feed_id : FeedId) (acc : ServiceState × ℕ)
    (item : ℕ × Option FrameDetections) :
    (process_feed_step feed_id acc item).1.registry = acc.1.registry ∧
    (process_feed_step feed_id acc item).1.procs = acc.1.procs ∧
    (process_feed_step feed_id acc item).1.workers = acc.1.workers ∧
    (process_feed_step feed_id acc item).2 =
      acc.2 + (if item.2.isNone then 1 else 0) := by
  obtain ⟨k, o⟩ := item
  cases o with
  | none => exact ⟨rfl, rfl, rfl, rfl⟩
  | some d =>
      unfold process_feed_step
      dsimp only
      simp only [Option.isNone_some, Bool.false_eq_true, if_false, Nat.add_zero]
      split_ifs <;> exact ⟨rfl, rfl, rfl, rfl⟩

theorem process_feed_foldl_effect (feed_id : FeedId)
    (items : List (ℕ × Option FrameDetections)) (acc : ServiceState × ℕ) :
    (items.foldl (process_feed_step feed_id) acc).1.registry = acc.1.registry ∧
    (items.foldl (process_feed_step feed_id) acc).1.procs = acc.1.procs ∧
    (items.foldl (process_feed_step feed_id) acc).1.workers = acc.1.workers ∧
    (items.foldl (process_feed_step feed_id) acc).2 =
      acc.2 + items.countP (fun i => i.2.isNone) := by
  induction items generalizing acc with
  | nil => simp
  | cons it rest ih =>
      obtain ⟨s1, s2, s3, s4⟩ := process_feed_step_effect feed_id acc it
      obtain ⟨h1, h2, h3, h4⟩ := ih (process_feed_step feed_id acc it)
      rw [List.foldl_cons] at *
      refine ⟨by rw [h1, s1], by rw [h2, s2], by rw [h3, s3], ?_⟩
      rw [h4, s4, List.countP_cons]
      by_cases hn : it.2.isNone <;> simp [hn] <;> omega

theorem process_feed_errors_only (feed_id : FeedId) (n : ℕ) (acc : ServiceState × ℕ) :
    (List.replicate n ((30 : ℕ), (none : Option FrameDetections))).foldl
        (process_feed_step feed_id) acc = (acc.1, acc.2 + n) := by
  induction n generalizing acc with
  | zero => simp
  | succ m ih =>
      rw [List.replicate_succ, List.foldl_cons, ih]
      show ((acc.1, acc.2 + 1).1, (acc.1, acc.2 + 1).2 + m) = (acc.1, acc.2 + (m + 1))
      dsimp only
      rw [Nat.add_assoc, Nat.add_comm 1 m]

/-- C8's escalation clause fails on the code: `_process_feed` catches
every per-frame exception and continues, tracking no failure count and
never changing feed state, so there is no bound beyond which
consecutive detector failures move the feed to a Failed state (which
per the error taxonomy would remove it from active processing): a run
of any number of consecutive failures leaves the whole service state
exactly as it was. -/
theorem C8_counterexample :
    ¬ ∃ B : ℕ, ∀ n : ℕ, B < n →
      (process_feed ⟨1, 2, 3⟩ running_service
          (List.replicate n ((30 : ℕ), (none : Option FrameDetections)))).1 ≠
        running_service := by
  intro hex
  obtain ⟨B, h⟩ := hex
  apply h (B + 1) (Nat.lt_succ_self B)
  show (List.foldl _ (running_service, 0) _).1 = running_service
  rw [process_feed_errors_only]

/-- C8 amended: a detector error on a frame is non-fatal — the frame is
skipped, the error is logged and processing continues, with every
error in the run logged and any later good frame still published — but
no run of consecutive failures, however long, escalates the feed: the
registry, the processors and the workers are untouched by the whole
run. -/
theorem C8_amended_nonfatal_never_escalates (feed_id : FeedId) (svc : ServiceState)
    (items : List (ℕ × Option FrameDetections)) (n k : ℕ) (d : FrameDetections)
    (hk : k % 30 = 0) :
    ((process_feed feed_id svc items).1.registry = svc.registry ∧
      (process_feed feed_id svc items).1.procs = svc.procs ∧
      (process_feed feed_id svc items).1.workers = svc.workers) ∧
    ((process_feed feed_id svc items).2 = items.countP (fun i => i.2.isNone)) ∧
    (lookupA feed_id
        (process_feed feed_id svc
          (List.replicate n ((30 : ℕ), (none : Option FrameDetections)) ++
            [(k, some d)])).1.analysis_results =
      some (snapshotOf k d)) := by
  obtain ⟨h1, h2, h3, h4⟩ := process_feed_foldl_effect feed_id items (svc, 0)
  refine ⟨⟨h1, h2, h3⟩, ?_, ?_⟩
  · show (items.foldl (process_feed_step feed_id) (svc, 0)).2 = _
    rw [h4]
    exact Nat.zero_add _
  unfold process_feed
  rw [List.foldl_append, process_feed_errors_only, List.foldl_cons, List.foldl_nil]
  unfold process_feed_step
  dsimp only
  rw [if_pos hk]
  exact lookupA_insertA_self _ _ _

/-- Witness for `C8_amended_nonfatal_never_escalates`: five consecutive
detector failures followed by a good frame at frame count 30. -/
theorem C8_amended_nonfatal_never_escalates_witness :
    ((30 : ℕ) % 30 = 0) ∧
    lookupA (⟨1, 2, 3⟩ : FeedId)
        (process_feed ⟨1, 2, 3⟩ running_service
          (List.replicate 5 ((30 : ℕ), (none : Option FrameDetections)) ++
            [(30, some (process_frame []))])).1.analysis_results =
      some (snapshotOf 30 (process_frame [])) :=
  ⟨rfl,
    (C8_amended_nonfatal_never_escalates ⟨1, 2, 3⟩ running_service [] 5 30
      (process_frame []) rfl).2.2⟩

/-- C9 fails on the code: `stop_feed` (lines 304-308) deletes only the
`active_processors` entry and never touches `analysis_results`, while
`get_feed_results` (lines 300-302) reads only `analysis_results` — so
after creating a feed, publishing one snapshot and stopping the feed,
the feed id is unknown to the registry yet `get_feed_results` returns
the stale snapshot instead of empty. -/
theorem C9_counterexample :
    ((⟨1, 2, 3⟩ : FeedId) ∉
        (stop_feed
          (process_feed ⟨1, 2, 3⟩ (add_youtube_feed empty_service 1 2 3 true).1
            [(30, some (process_frame []))]).1 ⟨1, 2, 3⟩).registry) ∧
    (get_feed_results
        (stop_feed
          (process_feed ⟨1, 2, 3⟩ (add_youtube_feed empty_service 1 2 3 true).1
            [(30, some (process_frame []))]).1 ⟨1, 2, 3⟩) ⟨1, 2, 3⟩ =
      some (snapshotOf 30 (process_frame []))) := by
  decide

/-- C9 amended: `get_feed_results` reads only the result map, not the
registry — it returns empty exactly as long as no snapshot of the feed
id has ever been published (so for a feed id never seen, and for a
freshly created feed with zero processed frames); once snapshots have
been published it returns the last published one (last-write-wins),
regardless of registry membership: `stop_feed` removes only the
registry entry, leaving the stopped feed's stale snapshot readable. -/
theorem C9_amended_empty_iff_never_published (svc : ServiceState)
    (junction_id feed_name ts : ℕ) (feed_id stop_id : FeedId) (k1 k2 : ℕ)
    (d1 d2 : FrameDetections) (open_ok : Bool)
    (hfresh : lookupA (⟨junction_id, feed_name, ts⟩ : FeedId) svc.analysis_results = none)
    (hnever : lookupA feed_id svc.analysis_results = none)
    (h1 : k1 % 30 = 0) (h2 : k2 % 30 = 0) :
    (get_feed_results svc feed_id = none) ∧
    (get_feed_results (add_youtube_feed svc junction_id feed_name ts open_ok).1
        ⟨junction_id, feed_name, ts⟩ = none) ∧
    (get_feed_results
        (process_feed feed_id svc [(k1, some d1), (k2, some d2)]).1 feed_id =
      some (snapshotOf k2 d2)) ∧
    (∀ svc2 : ServiceState, ∀ fid : FeedId,
      get_feed_results (stop_feed svc2 stop_id) fid = get_feed_results svc2 fid) := by
  refine ⟨hnever, ?_, ?_, ?_⟩
  · cases open_ok <;> exact hfresh
  · unfold get_feed_results process_feed
    rw [List.foldl_cons, List.foldl_cons, List.foldl_nil]
    unfold process_feed_step
    dsimp only
    rw [if_pos h1]
    dsimp only
    rw [if_pos h2]
    exact lookupA_insertA_self _ _ _
  · intro svc2 fid
    unfold get_feed_results stop_feed
    split_ifs <;> rfl

/-- Witness for `C9_amended_empty_iff_never_published` on the empty
service: a never-published feed gives empty, a fresh feed gives empty,
two publishes at frame counts 30 and 60 give the second snapshot, and
stopping a feed never changes any read. -/
theorem C9_amended_empty_iff_never_published_witness :
    (lookupA (⟨1, 2, 3⟩ : FeedId) empty_service.analysis_results = none ∧
      lookupA (⟨9, 9, 9⟩ : FeedId) empty_service.analysis_results = none ∧
      (30 : ℕ) % 30 = 0 ∧ (60 : ℕ) % 30 = 0) ∧
    (get_feed_results
        (process_feed ⟨9, 9, 9⟩ empty_service
          [(30, some (process_frame [])), (60, some (process_frame []))]).1 ⟨9, 9, 9⟩ =
      some (snapshotOf 60 (process_frame []))) :=
  ⟨⟨rfl, rfl, rfl, rfl⟩,
    (C9_amended_empty_iff_never_published empty_service 1 2 3 ⟨9, 9, 9⟩ ⟨1, 2, 3⟩ 30 60
      (process_frame []) (process_frame []) false rfl rfl rfl rfl).2.2.1⟩

end TrackV
